import Mathlib

/-!
Verification of the storage/type-resolution layer of the `torch` package
front-end (`src/torch/__init__.py`) against its specification.

The file embeds, in order:
* the `ElementKind` enumeration and the thirteen storage classes declared
  in `torch/__init__.py` (`_storage_classes`);
* a small model of the Python runtime-type facts needed by `is_storage`
  (exact-type membership) and `is_tensor` (`isinstance`);
* the `typename` helper, translated clause by clause from the source;
* the `set_default_tensor_type` front-end function from the source, and
  spec-modelled definitions of the components that live in the native
  extension `_C` (DefaultTypeState, TypeRegistry, TensorView.construct).
-/

namespace Torch

/-- The enumerated scalar representations of the data model: thirteen
element kinds, one per storage class of `torch/__init__.py`. -/
inductive ElementKind where
  | float64
  | float32
  | float16
  | int64
  | int32
  | int16
  | int8
  | uint8
  | boolean
  | quint8
  | qint8
  | qint32
  | bfloat16
  deriving DecidableEq, Repr

/-- All thirteen element kinds, each exactly once. -/
def allElementKinds : List ElementKind :=
  [.float64, .float32, .float16, .int64, .int32, .int16, .int8,
   .uint8, .boolean, .quint8, .qint8, .qint32, .bfloat16]

/-- The storage classes defined in `torch/__init__.py` (lines 176-223):
each one subclasses the `_C` base of the same name together with
`_StorageBase`. -/
inductive StorageClass where
  | DoubleStorage
  | FloatStorage
  | HalfStorage
  | LongStorage
  | IntStorage
  | ShortStorage
  | CharStorage
  | ByteStorage
  | BoolStorage
  | BFloat16Storage
  | QUInt8Storage
  | QInt8Storage
  | QInt32Storage
  deriving DecidableEq, Repr

/-- The set literal `_storage_classes` from `torch/__init__.py`
(lines 226-230), in the order of the source. -/
def storage_classes : List StorageClass :=
  [.DoubleStorage, .FloatStorage, .LongStorage, .IntStorage, .ShortStorage,
   .CharStorage, .ByteStorage, .HalfStorage, .BoolStorage, .QUInt8Storage,
   .QInt8Storage, .QInt32Storage, .BFloat16Storage]

/-- The element kind a storage class holds, read off the class names
(`DoubleStorage` holds 64-bit floats, `CharStorage` 8-bit signed
integers, `ByteStorage` 8-bit unsigned integers, and so on). -/
def StorageClass.kind : StorageClass → ElementKind
  | .DoubleStorage => .float64
  | .FloatStorage => .float32
  | .HalfStorage => .float16
  | .LongStorage => .int64
  | .IntStorage => .int32
  | .ShortStorage => .int16
  | .CharStorage => .int8
  | .ByteStorage => .uint8
  | .BoolStorage => .boolean
  | .BFloat16Storage => .bfloat16
  | .QUInt8Storage => .quint8
  | .QInt8Storage => .qint8
  | .QInt32Storage => .qint32

/-!
## Python runtime-type facts for `is_storage` / `is_tensor`

`is_storage(obj)` tests `type(obj) in _storage_classes` — an exact-type
membership test — while `is_tensor(obj)` tests `isinstance(obj, torch.Tensor)`,
which also accepts instances of subclasses.  We model the exact runtime type
of an object as a `PyType`: the thirteen storage classes, a strict subclass
of each, `torch.Tensor`, a strict subclass of it, and anything else.
-/

inductive PyType where
  | storage (c : StorageClass)
  | storageSub (c : StorageClass)
  | tensor
  | tensorSub
  | other
  deriving DecidableEq, Repr

/-- The direct base class, for the subclass chains present in the model:
a `storageSub c` derives from `storage c`, `tensorSub` from `tensor`. -/
def PyType.base : PyType → Option PyType
  | .storageSub c => some (.storage c)
  | .tensorSub => some .tensor
  | _ => none

/-- `t` is `u` or derives from it (the `isinstance` relation restricted to
the single-step chains of this model). -/
def PyType.isSubclassOf (t u : PyType) : Bool :=
  decide (t = u) ||
    (match t.base with
     | some b => decide (b = u)
     | none => false)

/-- `is_tensor` from `torch/__init__.py` (lines 100-106):
`isinstance(obj, torch.Tensor)`, applied to the object's runtime type. -/
def is_tensor (t : PyType) : Bool :=
  t.isSubclassOf .tensor

/-- `is_storage` from `torch/__init__.py` (lines 109-115):
`type(obj) in _storage_classes`, an exact-type membership test. -/
def is_storage (t : PyType) : Bool :=
  (storage_classes.map PyType.storage).contains t

/-!
## The `typename` helper

A Python object, as far as `typename` (lines 80-97) observes it: whether it
is a `torch.Tensor` instance, what `o.type()` would return, and its
`__module__` / `__qualname__` / `__name__` / `__class__.__name__` attributes.
`moduleAttr = none` models a missing `__module__` attribute;
`some none` models `__module__ is None`.
-/

structure PyObject where
  isTensorInstance : Bool
  typeResult : String
  moduleAttr : Option (Option String)
  qualnameAttr : Option String
  nameAttr : Option String
  classNameAttr : String
  deriving DecidableEq, Repr

/-- `typename` from `torch/__init__.py` (lines 80-97), clause by clause:
tensors short-circuit to `o.type()`; otherwise a module qualifier is added
unless `__module__` is missing, `None`, `'builtins'` or `'__builtin__'`,
and the class name is taken from `__qualname__`, else `__name__`, else
`__class__.__name__`. -/
def typename (o : PyObject) : String :=
  if o.isTensorInstance then
    o.typeResult
  else
    let module : String :=
      match o.moduleAttr with
      | some (some m) =>
        if m ≠ "builtins" ∧ m ≠ "__builtin__" then m ++ "." else ""
      | some none => ""
      | none => ""
    let class_name : String :=
      match o.qualnameAttr with
      | some q => q
      | none =>
        match o.nameAttr with
        | some n => n
        | none => o.classNameAttr
    module ++ class_name

/-!
## Error taxonomy (§7 of the spec)
-/

inductive Err where
  | DuplicateRegistration
  | UnknownType
  | MalformedTypeName
  | AllocationFailure
  | UnsupportedDefaultKind
  | ShapeStrideMismatch
  | IncompatibleShape
  | IndexOutOfRange
  deriving DecidableEq, Repr

/-!
## DefaultTypeState (§4.3 of the spec)

The state itself and its setters live in the native extension
(`_C._set_default_dtype`, `_C._set_default_tensor_type`), which is not under
`src/`; only the thin Python wrappers are.  The definitions below are
therefore modelled from the spec where marked.
-/

/-- The floating-point element kinds: the 64-, 32- and 16-bit floats and
the 16-bit brain-float. -/
def ElementKind.isFloatingPoint : ElementKind → Bool
  | .float64 => true
  | .float32 => true
  | .float16 => true
  | .bfloat16 => true
  | _ => false

/-- A concrete tensor/storage type descriptor: a backend tag plus an
element kind. -/
structure TypeDescriptor where
  backend : String
  kind : ElementKind
  deriving DecidableEq, Repr

/-- Modelled from the spec: the process-wide DefaultTypeState singleton of
§3/§4.3, held inside the native extension.  It carries the default
element kind for floating-point inference and the default concrete
tensor/storage type. -/
structure DefaultTypeState where
  defaultKind : ElementKind
  defaultType : TypeDescriptor
  deriving DecidableEq, Repr

/-- Modelled from the spec: the state at process start — 32-bit float and
the generic CPU float tensor `torch.FloatTensor`. -/
def initialDefaultTypeState : DefaultTypeState :=
  { defaultKind := .float32
    defaultType := { backend := "torch", kind := .float32 } }

/-- Modelled from the spec: the body of `_C._set_default_dtype` (called by
`set_default_dtype`, `torch/__init__.py` lines 142-161) is in the native
extension and not under `src/`.  Per §4.3 it fails with
`UnsupportedDefaultKind` unless the kind is a floating-point kind. -/
def setDefaultElementKind (s : DefaultTypeState) (k : ElementKind) :
    Except Err DefaultTypeState :=
  if k.isFloatingPoint then .ok { s with defaultKind := k }
  else .error .UnsupportedDefaultKind

/-- Modelled from the spec: dtype resolution at a tensor-construction call
site — an explicit dtype wins, otherwise the default element kind of the
DefaultTypeState is read (§3: "read by every tensor-construction call site
that omits an explicit dtype"). -/
def constructTensorKind (s : DefaultTypeState) (dtype : Option ElementKind) :
    ElementKind :=
  match dtype with
  | some k => k
  | none => s.defaultKind

/-- The operations a client may perform against the DefaultTypeState between
two points in time: dtype-omitted or explicit tensor constructions (reads)
and default-element-kind setter calls (writes). -/
inductive DefaultStateOp where
  | constructTensor (dtype : Option ElementKind)
  | setKind (k : ElementKind)
  deriving DecidableEq, Repr

/-- Whether an operation is a default-element-kind setter call. -/
def DefaultStateOp.isSetKind : DefaultStateOp → Bool
  | .setKind _ => true
  | _ => false

/-- One operation against the state: constructions read it, a setter call
replaces the default kind when it succeeds and leaves the state alone when
it fails. -/
def runOp (s : DefaultTypeState) : DefaultStateOp → DefaultTypeState
  | .constructTensor _ => s
  | .setKind k =>
    match setDefaultElementKind s k with
    | .ok s' => s'
    | .error _ => s

/-- Run a sequence of operations left to right. -/
def runOps (s : DefaultTypeState) : List DefaultStateOp → DefaultTypeState
  | [] => s
  | op :: rest => runOps (runOp s op) rest

/-!
## Name resolution and the default-tensor-type setters

`set_default_tensor_type` (`torch/__init__.py` lines 118-139) resolves a
string argument with `_import_dotted_name` before handing the type to
`_C._set_default_tensor_type`.  Both `_import_dotted_name` (from
`torch._utils`) and the native setter are outside `src/`.
-/

/-- A lookup table from canonical dotted type names to descriptors. -/
def NameTable := List (String × TypeDescriptor)

/-- Look a canonical dotted name up in a table. -/
def resolveName (table : NameTable) (nm : String) : Option TypeDescriptor :=
  (table.find? (fun e => decide (e.1 = nm))).map (·.2)

/-- The canonical dotted names of the CPU tensor types exported by
`torch/__init__.py` (`__all__`, lines 29-30), mapped to their descriptors. -/
def canonicalNames : NameTable :=
  [("torch.DoubleTensor", ⟨"torch", .float64⟩),
   ("torch.FloatTensor", ⟨"torch", .float32⟩),
   ("torch.LongTensor", ⟨"torch", .int64⟩),
   ("torch.IntTensor", ⟨"torch", .int32⟩),
   ("torch.ShortTensor", ⟨"torch", .int16⟩),
   ("torch.CharTensor", ⟨"torch", .int8⟩),
   ("torch.ByteTensor", ⟨"torch", .uint8⟩),
   ("torch.BoolTensor", ⟨"torch", .boolean⟩)]

/-- The argument of the default-tensor-type setter: a canonical dotted
name (a Python string) or a direct type descriptor (a Python type). -/
inductive TypeNameOrDescriptor where
  | name (nm : String)
  | descriptor (d : TypeDescriptor)
  deriving DecidableEq, Repr

/-- An error raised by dotted-name resolution (`ModuleNotFoundError` /
`AttributeError` in Python). -/
inductive PyError where
  | moduleNotFound (nm : String)
  | attributeMissing (nm : String)
  deriving DecidableEq, Repr

/-- Modelled from the spec: the write performed by
`_C._set_default_tensor_type` on the DefaultTypeState singleton, which is
in the native extension and not under `src/`. -/
def setDefaultTensorTypeNative (s : DefaultTypeState) (d : TypeDescriptor) :
    DefaultTypeState :=
  { s with defaultType := d }

/-- `set_default_tensor_type` from `torch/__init__.py` (lines 118-139),
with the global state passed explicitly: a string argument is first
resolved by the given dotted-name resolver (`_import_dotted_name`, whose
definition is outside `src/`, abstracted as `resolveDotted`); only after
successful resolution is `_C._set_default_tensor_type` applied.  The result
pairs the state after the call with the raised error, if any: a raised
resolution error aborts the body before the native write runs. -/
def set_default_tensor_type
    (resolveDotted : String → Except PyError TypeDescriptor)
    (t : TypeNameOrDescriptor) (s : DefaultTypeState) :
    DefaultTypeState × Option PyError :=
  match t with
  | .name nm =>
    match resolveDotted nm with
    | .error e => (s, some e)
    | .ok d => (setDefaultTensorTypeNative s d, none)
  | .descriptor d => (setDefaultTensorTypeNative s d, none)

/-- Modelled from the spec: `setDefaultTensorType` of §4.3 — accepts a
canonical name (resolved against the registry's name table) or a direct
descriptor, and fails with `UnknownType` if resolution fails. -/
def setDefaultTensorType (table : NameTable) (s : DefaultTypeState)
    (t : TypeNameOrDescriptor) : Except Err DefaultTypeState :=
  match t with
  | .descriptor d => .ok { s with defaultType := d }
  | .name nm =>
    match resolveName table nm with
    | some d => .ok { s with defaultType := d }
    | none => .error .UnknownType

/-!
## TypeRegistry (§4.1 of the spec)

The registry lives in the native extension and is not under `src/`; it is
modelled from the spec as an association list from (backend, kind) pairs
to factories.
-/

/-- An abstract factory token; distinct identifiers model distinct
factories, so "the exact factory registered" is expressible. -/
structure Factory where
  fid : Nat
  deriving DecidableEq, Repr

/-- Modelled from the spec: the TypeRegistry of §4.1, mapping
(backend tag, ElementKind) to the registered factory. -/
structure Registry where
  entries : List ((String × ElementKind) × Factory)
  deriving DecidableEq, Repr

/-- First factory recorded for the key (b, k) in an entry list. -/
def findEntry (b : String) (k : ElementKind) :
    List ((String × ElementKind) × Factory) → Option Factory
  | [] => none
  | e :: rest => if e.1 = (b, k) then some e.2 else findEntry b k rest

/-- The entry registered for a (backend, kind) pair, if any. -/
def Registry.find (r : Registry) (b : String) (k : ElementKind) :
    Option Factory :=
  findEntry b k r.entries

/-- Modelled from the spec: `register(backend, kind, factory)` — fails with
`DuplicateRegistration` if an entry for (backend, kind) already exists. -/
def Registry.register (r : Registry) (b : String) (k : ElementKind)
    (f : Factory) : Except Err Registry :=
  match r.find b k with
  | some _ => .error .DuplicateRegistration
  | none => .ok ⟨((b, k), f) :: r.entries⟩

/-- Modelled from the spec: `resolve(backend, kind)` — fails with
`UnknownType` if absent. -/
def Registry.resolve (r : Registry) (b : String) (k : ElementKind) :
    Except Err Factory :=
  match r.find b k with
  | some f => .ok f
  | none => .error .UnknownType

/-- The registry before any registration. -/
def Registry.empty : Registry := ⟨[]⟩

/-!
## TensorView construction (§4.4 of the spec)

The strided-view bounds check lives in the native extension and is not
under `src/`; it is modelled from the spec: `construct` must fail with
`ShapeStrideMismatch` exactly when some valid multi-index projects outside
the storage's capacity.
-/

/-- A typed contiguous buffer: its element kind and capacity in elements. -/
structure Storage where
  kind : ElementKind
  capacity : Nat
  deriving DecidableEq, Repr

/-- A logical multi-dimensional array over a storage: shape, per-dimension
element strides, a storage offset and a dtype. -/
structure TensorView where
  shape : List Nat
  stride : List Nat
  offset : Nat
  dtype : ElementKind
  deriving DecidableEq, Repr

/-- `validIdx shape idx` — `idx` is a valid multi-index for `shape`: same
length, and each coordinate below its dimension's extent. -/
def validIdx : List Nat → List Nat → Bool
  | [], [] => true
  | d :: ds, i :: rest => decide (i < d) && validIdx ds rest
  | _, _ => false

/-- The storage element a multi-index addresses through stride and offset:
`offset + Σ stride_i · idx_i`. -/
def project (stride : List Nat) (offset : Nat) (idx : List Nat) : Nat :=
  offset + (List.zipWith (· * ·) stride idx).sum

/-- The largest address any valid multi-index can reach: every coordinate
at its maximum `extent - 1`. -/
def maxProject (shape stride : List Nat) (offset : Nat) : Nat :=
  offset + (List.zipWith (fun d st => st * (d - 1)) shape stride).sum

/-- Modelled from the spec: `construct(storage, shape, stride, offset)` of
§4.4 — fails with `ShapeStrideMismatch` if any valid multi-index would
project outside the storage's capacity.  When some extent is zero there is
no valid multi-index, so the check passes vacuously; otherwise it suffices
to bound the largest reachable address. -/
def construct (s : Storage) (shape stride : List Nat) (offset : Nat) :
    Except Err TensorView :=
  if shape.all (fun d => decide (0 < d)) then
    if maxProject shape stride offset < s.capacity then
      .ok ⟨shape, stride, offset, s.kind⟩
    else
      .error .ShapeStrideMismatch
  else
    .ok ⟨shape, stride, offset, s.kind⟩

/-!
## Helper lemmas
-/

/-- A sequence of operations containing no setter call leaves the
DefaultTypeState untouched. -/
theorem runOps_no_setKind (ops : List DefaultStateOp) (s : DefaultTypeState)
    (h : ∀ op ∈ ops, op.isSetKind = false) : runOps s ops = s := by
  induction ops generalizing s with
  | nil => rfl
  | cons op rest ih =>
    have hop := h op (List.mem_cons_self op rest)
    have hrest : ∀ o ∈ rest, o.isSetKind = false :=
      fun o ho => h o (List.mem_cons_of_mem op ho)
    cases op with
    | constructTensor d =>
      simpa only [runOps, runOp] using ih s hrest
    | setKind k =>
      simp [DefaultStateOp.isSetKind] at hop

/-- The projection of a valid multi-index is bounded by the projection of
the extremal index (every coordinate at `extent - 1`). -/
theorem projSum_le_maxSum (shape : List Nat) :
    ∀ (stride idx : List Nat), validIdx shape idx = true →
      (List.zipWith (· * ·) stride idx).sum ≤
        (List.zipWith (fun d st => st * (d - 1)) shape stride).sum := by
  induction shape with
  | nil =>
    intro stride idx h
    cases idx with
    | nil => simp
    | cons i rest => simp [validIdx] at h
  | cons d ds ih =>
    intro stride idx h
    cases idx with
    | nil => simp [validIdx] at h
    | cons i rest =>
      simp only [validIdx, Bool.and_eq_true, decide_eq_true_eq] at h
      cases stride with
      | nil => simp
      | cons st sts =>
        simp only [List.zipWith_cons_cons, List.sum_cons]
        exact Nat.add_le_add (Nat.mul_le_mul_left st (by omega))
          (ih sts rest h.2)

/-- When every extent is positive, the extremal index is a valid
multi-index. -/
theorem validIdx_maxIdx (shape : List Nat)
    (h : shape.all (fun d => decide (0 < d)) = true) :
    validIdx shape (shape.map (fun d => d - 1)) = true := by
  induction shape with
  | nil => rfl
  | cons d ds ih =>
    simp only [List.all_cons, Bool.and_eq_true, decide_eq_true_eq] at h
    simp only [List.map_cons, validIdx, Bool.and_eq_true, decide_eq_true_eq]
    exact ⟨by omega, ih h.2⟩

/-- The extremal index attains the bound used by `maxProject`. -/
theorem projSum_maxIdx (shape : List Nat) :
    ∀ stride : List Nat,
      (List.zipWith (· * ·) stride (shape.map (fun d => d - 1))).sum =
        (List.zipWith (fun d st => st * (d - 1)) shape stride).sum := by
  induction shape with
  | nil => intro stride; simp
  | cons d ds ih =>
    intro stride
    cases stride with
    | nil => simp
    | cons st sts =>
      simp only [List.map_cons, List.zipWith_cons_cons, List.sum_cons, ih]

/-- A shape with a zero extent admits no valid multi-index. -/
theorem validIdx_none_of_zero (shape : List Nat)
    (h : ¬ shape.all (fun d => decide (0 < d)) = true) :
    ∀ idx, validIdx shape idx = false := by
  induction shape with
  | nil => exact absurd rfl h
  | cons d ds ih =>
    intro idx
    cases idx with
    | nil => rfl
    | cons i rest =>
      simp only [List.all_cons, Bool.and_eq_true, decide_eq_true_eq,
        not_and_or] at h
      simp only [validIdx, Bool.and_eq_false_iff, decide_eq_false_iff_not]
      rcases h with h1 | h1
      · left; omega
      · right; exact ih h1 rest

/-- A successful registration records its key at the head of the entry
list, and the key was previously absent. -/
theorem register_ok_entries {r r' : Registry} {b : String} {k : ElementKind}
    {f : Factory} (h : r.register b k f = Except.ok r') :
    r.find b k = none ∧ r' = ⟨((b, k), f) :: r.entries⟩ := by
  unfold Registry.register at h
  cases hf : r.find b k with
  | some g => rw [hf] at h; exact absurd h (by simp)
  | none => rw [hf] at h; exact ⟨rfl, (Except.ok.inj h).symm⟩

/-- A lookup skips a head entry whose key differs. -/
theorem findEntry_cons_ne {b b' : String} {k k' : ElementKind} (f' : Factory)
    (es : List ((String × ElementKind) × Factory))
    (h : ((b', k') : String × ElementKind) ≠ (b, k)) :
    findEntry b k (((b', k'), f') :: es) = findEntry b k es := by
  simp only [findEntry]
  split
  · next hc => exact absurd hc h
  · rfl

/-!
## Claim theorems
-/

/-- C1: the default-element-kind setter succeeds exactly on the
floating-point kinds (64-, 32-, 16-bit float and 16-bit brain-float),
updating the default kind; on every other kind — for example `int32` — it
fails with `UnsupportedDefaultKind`. -/
theorem setDefaultElementKind_floating_only (s : DefaultTypeState)
    (k : ElementKind) :
    setDefaultElementKind s k =
      if k = .float64 ∨ k = .float32 ∨ k = .float16 ∨ k = .bfloat16 then
        Except.ok { s with defaultKind := k }
      else
        Except.error Err.UnsupportedDefaultKind := by
  cases k <;> simp [setDefaultElementKind, ElementKind.isFloatingPoint]

/-- C2: after a successful `setDefaultElementKind .float64`, every
subsequent dtype-omitted tensor construction yields element kind
`float64`, across any sequence of operations that does not call the
setter again. -/
theorem default_float64_propagates (s s' : DefaultTypeState)
    (ops : List DefaultStateOp)
    (hset : setDefaultElementKind s .float64 = Except.ok s')
    (hnoset : ∀ op ∈ ops, op.isSetKind = false) :
    constructTensorKind (runOps s' ops) none = ElementKind.float64 := by
  have hstate : runOps s' ops = s' := runOps_no_setKind ops s' hnoset
  have hs' : s' = { s with defaultKind := .float64 } := by
    have hred : setDefaultElementKind s .float64 =
        Except.ok { s with defaultKind := .float64 } := rfl
    rw [hred] at hset
    exact (Except.ok.inj hset).symm
  rw [hstate, hs']
  rfl

/-- Witness for C2: from the state just after setting float64, two
constructions later a dtype-omitted construction still yields float64. -/
theorem default_float64_propagates_witness :
    constructTensorKind
      (runOps { defaultKind := ElementKind.float64,
                defaultType := { backend := "torch",
                                 kind := ElementKind.float32 } }
        [DefaultStateOp.constructTensor none,
         DefaultStateOp.constructTensor (some ElementKind.int32)]) none =
      ElementKind.float64 :=
  default_float64_propagates initialDefaultTypeState _ _ rfl (by decide)

/-- C3: at process start the default element kind is 32-bit float, the
default tensor type is the descriptor named by the canonical dotted name
"torch.FloatTensor" (the generic CPU float tensor), and a dtype-omitted
construction yields float32. -/
theorem initial_defaults_float32 :
    initialDefaultTypeState.defaultKind = ElementKind.float32
    ∧ resolveName canonicalNames "torch.FloatTensor" =
        some initialDefaultTypeState.defaultType
    ∧ constructTensorKind initialDefaultTypeState none =
        ElementKind.float32 :=
  ⟨rfl, by decide, rfl⟩

/-- C4: the default-tensor-type setter accepts a direct descriptor and a
canonical name that resolves, writing the resolved type; for every name
whose resolution fails it fails with `UnknownType`. -/
theorem setDefaultTensorType_resolution (table : NameTable)
    (s : DefaultTypeState) :
    (∀ d, setDefaultTensorType table s (.descriptor d) =
        Except.ok { s with defaultType := d })
    ∧ (∀ nm d, resolveName table nm = some d →
        setDefaultTensorType table s (.name nm) =
          Except.ok { s with defaultType := d })
    ∧ (∀ nm, resolveName table nm = none →
        setDefaultTensorType table s (.name nm) =
          Except.error Err.UnknownType) := by
  refine ⟨fun d => rfl, fun nm d h => ?_, fun nm h => ?_⟩
  · simp [setDefaultTensorType, h]
  · simp [setDefaultTensorType, h]

/-- Witness for C4: a resolvable canonical name succeeds, an unknown name
fails with `UnknownType`. -/
theorem setDefaultTensorType_resolution_witness :
    setDefaultTensorType canonicalNames initialDefaultTypeState
        (.name "torch.DoubleTensor") =
      Except.ok { initialDefaultTypeState with
                  defaultType := ⟨"torch", ElementKind.float64⟩ }
    ∧ setDefaultTensorType canonicalNames initialDefaultTypeState
        (.name "torch.Widget") = Except.error Err.UnknownType :=
  ⟨(setDefaultTensorType_resolution canonicalNames
        initialDefaultTypeState).2.1
      "torch.DoubleTensor" ⟨"torch", ElementKind.float64⟩ (by decide),
   (setDefaultTensorType_resolution canonicalNames
        initialDefaultTypeState).2.2
      "torch.Widget" (by decide)⟩

/-- C5: the storage classes of `_storage_classes` expose exactly the
thirteen enumerated element kinds — each class carries one kind, the
thirteen kinds are pairwise distinct, every element kind is covered, and
there are no duplicates and no extras. -/
theorem storage_classes_cover_kinds :
    List.Perm (storage_classes.map StorageClass.kind) allElementKinds
    ∧ storage_classes.Nodup
    ∧ allElementKinds.Nodup
    ∧ (∀ k : ElementKind, k ∈ allElementKinds)
    ∧ storage_classes.length = 13 := by
  refine ⟨by decide, by decide, by decide, fun k => ?_, by decide⟩
  cases k <;> decide

/-- C6: resolve-after-register returns the exact factory registered, a
registration of a different pair preserves resolution, resolve on a pair
never registered fails with `UnknownType`, and a second register of an
already-registered pair fails with `DuplicateRegistration`. -/
theorem registry_register_resolve :
    (∀ (r r' : Registry) (b : String) (k : ElementKind) (f : Factory),
      r.register b k f = Except.ok r' → r'.resolve b k = Except.ok f)
    ∧ (∀ (b : String) (k : ElementKind),
        Registry.empty.resolve b k = Except.error Err.UnknownType)
    ∧ (∀ (r r' : Registry) (b b' : String) (k k' : ElementKind)
        (f' : Factory),
        ((b', k') : String × ElementKind) ≠ (b, k) →
        r.register b' k' f' = Except.ok r' →
        r'.resolve b k = r.resolve b k)
    ∧ (∀ (r r' : Registry) (b : String) (k : ElementKind) (f f' : Factory),
        r.register b k f = Except.ok r' →
        r'.register b k f' = Except.error Err.DuplicateRegistration) := by
  refine ⟨?_, fun b k => rfl, ?_, ?_⟩
  · intro r r' b k f hreg
    obtain ⟨-, hr'⟩ := register_ok_entries hreg
    subst hr'
    simp [Registry.resolve, Registry.find, findEntry]
  · intro r r' b b' k k' f' hne hreg
    obtain ⟨-, hr'⟩ := register_ok_entries hreg
    subst hr'
    show (match Registry.find ⟨((b', k'), f') :: r.entries⟩ b k with
          | some f => Except.ok f
          | none => Except.error Err.UnknownType) = r.resolve b k
    rw [show Registry.find ⟨((b', k'), f') :: r.entries⟩ b k = r.find b k from
      findEntry_cons_ne f' r.entries hne]
    rfl
  · intro r r' b k f f' hreg
    obtain ⟨-, hr'⟩ := register_ok_entries hreg
    subst hr'
    show (match Registry.find ⟨((b, k), f) :: r.entries⟩ b k with
          | some _ => Except.error Err.DuplicateRegistration
          | none => Except.ok _) = Except.error Err.DuplicateRegistration
    rw [show Registry.find ⟨((b, k), f) :: r.entries⟩ b k = some f by
      simp [Registry.find, findEntry]]

/-- Witness for C6: registering ("cpu", float32) in the empty registry and
resolving it returns the registered factory; re-registering the pair fails
with `DuplicateRegistration`; registering ("cuda", float64) on top leaves
the resolution of ("cpu", float32) unchanged. -/
theorem registry_register_resolve_witness :
    (Registry.mk [(("cpu", ElementKind.float32), Factory.mk 0)]).resolve
        "cpu" ElementKind.float32 = Except.ok (Factory.mk 0)
    ∧ (Registry.mk [(("cpu", ElementKind.float32), Factory.mk 0)]).register
        "cpu" ElementKind.float32 (Factory.mk 1) =
        Except.error Err.DuplicateRegistration
    ∧ (Registry.mk [(("cuda", ElementKind.float64), Factory.mk 2),
                    (("cpu", ElementKind.float32), Factory.mk 0)]).resolve
        "cpu" ElementKind.float32 =
      (Registry.mk [(("cpu", ElementKind.float32), Factory.mk 0)]).resolve
        "cpu" ElementKind.float32 :=
  ⟨registry_register_resolve.1 Registry.empty _ "cpu" ElementKind.float32
      (Factory.mk 0) rfl,
   registry_register_resolve.2.2.2 Registry.empty _ "cpu"
      ElementKind.float32 (Factory.mk 0) (Factory.mk 1) rfl,
   registry_register_resolve.2.2.1
      (Registry.mk [(("cpu", ElementKind.float32), Factory.mk 0)]) _
      "cpu" "cuda" ElementKind.float32 ElementKind.float64 (Factory.mk 2)
      (by decide) rfl⟩

/-- C7: `construct` succeeds exactly when every valid multi-index for the
shape, projected through stride and offset, addresses an element strictly
below the storage's capacity; in particular shape [3], stride [1],
offset C-1 over capacity C fails with `ShapeStrideMismatch`. -/
theorem construct_ok_iff_inBounds :
    (∀ (st : Storage) (shape stride : List Nat) (offset : Nat),
      (∃ v, construct st shape stride offset = Except.ok v) ↔
        ∀ idx, validIdx shape idx = true →
          project stride offset idx < st.capacity)
    ∧ (∀ (k : ElementKind) (C : Nat),
        construct ⟨k, C⟩ [3] [1] (C - 1) =
          Except.error Err.ShapeStrideMismatch) := by
  constructor
  · intro st shape stride offset
    constructor
    · rintro ⟨v, hv⟩ idx hidx
      unfold construct at hv
      split at hv
      · next hall =>
        split at hv
        · next hlt =>
          have hle : project stride offset idx ≤
              maxProject shape stride offset :=
            Nat.add_le_add_left (projSum_le_maxSum shape stride idx hidx)
              offset
          omega
        · exact absurd hv (by simp)
      · next hall =>
        rw [validIdx_none_of_zero shape hall idx] at hidx
        exact absurd hidx (by simp)
    · intro hb
      unfold construct
      split
      · next hall =>
        have h3 := hb _ (validIdx_maxIdx shape hall)
        rw [project, projSum_maxIdx shape stride] at h3
        split
        · exact ⟨_, rfl⟩
        · next hlt => exact absurd h3 (by simpa [maxProject] using hlt)
      · exact ⟨_, rfl⟩
  · intro k C
    have h1 : ([3] : List Nat).all (fun d => decide (0 < d)) = true := by
      decide
    have h2 : ¬ maxProject [3] [1] (C - 1) < (Storage.mk k C).capacity := by
      simp only [maxProject, List.zipWith_cons_cons, List.zipWith_nil_right,
        List.sum_cons, List.sum_nil]
      omega
    simp [construct, h1, h2]

/-- Witness for C7: a successful construction over capacity 10 yields the
in-bounds property at a concrete valid multi-index. -/
theorem construct_ok_iff_inBounds_witness :
    project [3, 1] 0 [1, 2] < 10 :=
  (construct_ok_iff_inBounds.1 ⟨ElementKind.float32, 10⟩ [2, 3] [3, 1] 0).mp
    ⟨⟨[2, 3], [3, 1], 0, ElementKind.float32⟩, rfl⟩ [1, 2] rfl

/-- C8: `is_storage` is an exact-type test — true precisely when the
runtime type is one of the thirteen classes of `_storage_classes`, hence
false on a strict subclass of a storage class even though that subclass
derives from one — while `is_tensor` accepts instances of strict
subclasses of `torch.Tensor`. -/
theorem is_storage_exact_is_tensor_subclass :
    (∀ t : PyType, is_storage t = true ↔
        ∃ c ∈ storage_classes, t = PyType.storage c)
    ∧ (∀ c : StorageClass, is_storage (PyType.storageSub c) = false)
    ∧ (∀ c : StorageClass,
        PyType.isSubclassOf (PyType.storageSub c) (PyType.storage c) = true)
    ∧ is_tensor PyType.tensorSub = true := by
  refine ⟨?_, ?_, ?_, rfl⟩
  · intro t
    cases t with
    | storage c => cases c <;> decide
    | storageSub c => cases c <;> decide
    | tensor => decide
    | tensorSub => decide
    | other => decide
  · intro c; cases c <;> rfl
  · intro c; cases c <;> rfl

/-- C9: in `set_default_tensor_type`, a string argument is resolved before
the native state write runs: when resolution raises, the error propagates
and the state after the call is exactly the state before it; when
resolution succeeds, the resolved type is written. -/
theorem set_default_tensor_type_state_on_error
    (resolveDotted : String → Except PyError TypeDescriptor)
    (nm : String) (s : DefaultTypeState) :
    (∀ e, resolveDotted nm = Except.error e →
      set_default_tensor_type resolveDotted (.name nm) s = (s, some e))
    ∧ (∀ d, resolveDotted nm = Except.ok d →
      set_default_tensor_type resolveDotted (.name nm) s =
        ({ s with defaultType := d }, none)) := by
  constructor
  · intro e he
    simp [set_default_tensor_type, he]
  · intro d hd
    simp [set_default_tensor_type, hd, setDefaultTensorTypeNative]

/-- Witness for C9: under a resolver that always raises, the failed call
returns the untouched initial state together with the raised error. -/
theorem set_default_tensor_type_state_on_error_witness :
    set_default_tensor_type
      (fun nm => Except.error (PyError.attributeMissing nm))
      (.name "torch.Gadget") initialDefaultTypeState =
      (initialDefaultTypeState,
       some (PyError.attributeMissing "torch.Gadget")) :=
  (set_default_tensor_type_state_on_error
      (fun nm => Except.error (PyError.attributeMissing nm))
      "torch.Gadget" initialDefaultTypeState).1
    (PyError.attributeMissing "torch.Gadget") rfl

/-- C10: for a tensor instance `typename` returns `o.type()` whatever the
module/qualname attributes hold; for a non-tensor whose `__module__` is
missing, `None`, `'builtins'` or `'__builtin__'`, the result is the bare
class name (`__qualname__`, else `__name__`, else `__class__.__name__`)
with no module qualifier. -/
theorem typename_tensor_and_builtin (o : PyObject) :
    (o.isTensorInstance = true → typename o = o.typeResult)
    ∧ (o.isTensorInstance = false →
        (o.moduleAttr = none ∨ o.moduleAttr = some none ∨
         o.moduleAttr = some (some "builtins") ∨
         o.moduleAttr = some (some "__builtin__")) →
        typename o =
          (match o.qualnameAttr with
           | some q => q
           | none =>
             match o.nameAttr with
             | some n => n
             | none => o.classNameAttr)) := by
  constructor
  · intro h
    simp [typename, h]
  · intro h hm
    rcases hm with hm | hm | hm | hm <;>
      simp [typename, h, hm]

/-- Witness for C10: a tensor instance reports `o.type()` even with a
module set; a builtins-module integer reports its bare name. -/
theorem typename_tensor_and_builtin_witness :
    typename ⟨true, "torch.FloatTensor", some (some "collections"),
        some "OrderedDict", none, "OrderedDict"⟩ = "torch.FloatTensor"
    ∧ typename ⟨false, "", some (some "builtins"), some "int", none,
        "int"⟩ = "int" :=
  ⟨(typename_tensor_and_builtin
      ⟨true, "torch.FloatTensor", some (some "collections"),
        some "OrderedDict", none, "OrderedDict"⟩).1 rfl,
   (typename_tensor_and_builtin
      ⟨false, "", some (some "builtins"), some "int", none, "int"⟩).2 rfl
     (Or.inr (Or.inr (Or.inl rfl)))⟩

end Torch
